import Mathlib

/-
  Verification development for the domain-checker repository.

  The definitions below are a shallow embedding of the JavaScript sources:
  * the prober `checkWebsite` (prescreen worker, src/unnamed/part_002, first
    document, lines 1-272);
  * the classifier and dispatcher inside `processCSV` (src/server.js, first
    document, lines 199-283);
  * the deferred bad-docs bulk writer (src/unnamed/part_003, second document:
    `processQueue`, `addResultsQueue`);
  * the MongoDB upsert semantics used by `uploadToMongoDB` (src/server.js,
    second document, lines 423-463) and by the bad-docs service;
  * the poller (src/unnamed/part_004: `processBatch`, `pollToBeScanned`).

  Network effects (DNS answers, the fetched response) are passed explicitly as
  an environment record; JavaScript exceptions of a sub-operation are modelled
  with `Except` / outcome parameters, and the embedded functions are total, so
  a caught exception shows up as data, never as partiality.
-/

namespace DomainChecker

/-! ## JavaScript string primitives, modelled over `List Char`.

Core `String` functions such as `String.toLower` do not reduce inside the
kernel, so the JS string operations used by the sources are re-implemented
structurally over `List Char`. All of them are ASCII-faithful, which covers
every string the embedded code manipulates. -/

/-- ASCII lower-casing of one character, as `String.prototype.toLowerCase`
acts on ASCII input. -/
def jsCharLower (c : Char) : Char :=
  if c.isUpper then Char.ofNat (c.toNat + 32) else c

/-- JS `s.toLowerCase()` (ASCII fragment). -/
def jsToLower (s : String) : String := String.mk (s.data.map jsCharLower)

/-- Drop leading whitespace from a character list. -/
def dropLeadingWs : List Char → List Char
  | [] => []
  | c :: cs => if c.isWhitespace then dropLeadingWs cs else c :: cs

/-- JS `s.trim()`: strip whitespace from both ends. -/
def jsTrim (s : String) : String :=
  String.mk ((dropLeadingWs (dropLeadingWs s.data).reverse).reverse)

/-- Does `needle` occur at the head of `hay`? -/
def infixAt : List Char → List Char → Bool
  | [], _ => true
  | _ :: _, [] => false
  | c :: cs, x :: xs => (c = x) && infixAt cs xs

/-- Does `needle` occur anywhere inside `hay`? -/
def listInfixOf (needle : List Char) : List Char → Bool
  | [] => infixAt needle []
  | x :: xs => infixAt needle (x :: xs) || listInfixOf needle xs

/-- JS `hay.includes(needle)`. -/
def strContainsSub (hay needle : String) : Bool := listInfixOf needle.data hay.data

/-- UTF-8 byte width of one character. -/
def charUtf8Size (c : Char) : Nat :=
  if c.toNat < 0x80 then 1
  else if c.toNat < 0x800 then 2
  else if c.toNat < 0x10000 then 3
  else 4

/-- JS `Buffer.byteLength(s, "utf-8")`. -/
def utf8ByteLen (s : String) : Nat :=
  s.data.foldl (fun n c => n + charUtf8Size c) 0

/-- JS regex word character class `\w` = `[A-Za-z0-9_]`. -/
def isWordChar (c : Char) : Bool := c.isAlphanum || c = '_'

/-! Embedding of the regular expression `/\bww\d+\./` (WW_SUBDOMAIN_REGEX in
src/unnamed/part_002 line 32). Since the character after `\d+` must be a dot
and a dot is not a digit, greedy matching needs no backtracking. -/

/-- After at least one digit was seen: consume further digits, then require a
literal dot. -/
def restThenDot : List Char → Bool
  | [] => false
  | c :: cs => if c.isDigit then restThenDot cs else decide (c = '.')

/-- Match `\d+\.` at the head of the list. -/
def digitsThenDot : List Char → Bool
  | [] => false
  | c :: cs => c.isDigit && restThenDot cs

/-- Match `ww\d+\.` at the head of the list. -/
def wwAt : List Char → Bool
  | 'w' :: 'w' :: rest => digitsThenDot rest
  | _ => false

/-- Scan the list for a position with a word boundary followed by `ww\d+\.`;
`prev` is the character preceding the current position, if any. -/
def wwScanAux : Option Char → List Char → Bool
  | _, [] => false
  | prev, c :: cs =>
      ((match prev with
        | none => true
        | some p => !isWordChar p) && wwAt (c :: cs))
      || wwScanAux (some c) cs

/-- JS `WW_SUBDOMAIN_REGEX.test(s)` for `/\bww\d+\./`. -/
def wwSubdomainTest (s : String) : Bool := wwScanAux none s.data

/-! A small matcher for the fixed case-insensitive parking regexes of
src/unnamed/part_002 lines 52-60. Each pattern is a sequence of literal words
separated by `\s+`; the one optional group `(currently\s+)?` is expanded into
two alternatives tried greedy-first, exactly as the JS engine would. -/

/-- A regex token: a case-insensitive literal, or `\s+`. -/
inductive RTok
  | lit (s : String)
  | sp
deriving DecidableEq

/-- Match a case-insensitive literal at the head, returning the rest. -/
def matchLit : List Char → List Char → Option (List Char)
  | [], l => some l
  | _ :: _, [] => none
  | c :: cs, x :: xs => if jsCharLower x = jsCharLower c then matchLit cs xs else none

/-- Consume a maximal run of whitespace. -/
def chompSpaces : List Char → List Char
  | [] => []
  | c :: cs => if c.isWhitespace then chompSpaces cs else c :: cs

/-- Match `\s+` (at least one whitespace character, greedily) at the head. -/
def matchSpaces : List Char → Option (List Char)
  | [] => none
  | c :: cs => if c.isWhitespace then some (chompSpaces cs) else none

/-- Match a token sequence at the head of the list, returning the remainder. -/
def matchToks : List RTok → List Char → Option (List Char)
  | [], l => some l
  | RTok.lit s :: ts, l => (matchLit s.data l).bind (matchToks ts)
  | RTok.sp :: ts, l => (matchSpaces l).bind (matchToks ts)

/-- Try the alternatives of a pattern in order at the current position,
returning the number of consumed characters of the first that matches. -/
def firstAltMatch (alts : List (List RTok)) (l : List Char) : Option Nat :=
  match alts with
  | [] => none
  | a :: rest =>
    match matchToks a l with
    | some r => some (l.length - r.length)
    | none => firstAltMatch rest l

/-- Leftmost match of a pattern: JS `s.match(re)` with `match[0]` returned. -/
def scanPattern (alts : List (List RTok)) : List Char → Option (List Char)
  | [] =>
    match firstAltMatch alts [] with
    | some n => some (List.take n [])
    | none => none
  | x :: xs =>
    match firstAltMatch alts (x :: xs) with
    | some n => some (List.take n (x :: xs))
    | none => scanPattern alts xs

/-- First pattern of the list that matches the body; returns its `match[0]`. -/
def firstRegexTerm : List (List (List RTok)) → List Char → Option String
  | [], _ => none
  | p :: ps, l =>
    match scanPattern p l with
    | some m => some (String.mk m)
    | none => firstRegexTerm ps l

/-! ## Prober constants (src/unnamed/part_002, first document, lines 5-61). -/

/-- Minimum page size in bytes (line 5). -/
def MIN_PAGE_SIZE : Int := 1500

/-- Maximum page size in bytes (line 6). -/
def MAX_PAGE_SIZE : Int := 5 * 1024 * 1024

/-- Accepted HTTP status codes (line 8). -/
def ACCEPTED_STATUS_CODES : List Int := [200, 301]

/-- FILTERED_TERMS_GROUPED flattened by `Object.values(...).flat()` in
declaration order (lines 10-26). -/
def FILTERED_TERMS : List String :=
  ["domain", "parking", "hosting",
   "discord.com", "youtube.com", "flicker.com", "linkedin.com", "instagram.com", "flipboard.com",
   "amazon.com", "ebay.com", "etsy.com", "paparazziaccessories.com",
   "placester.com", "remax.com", "proagentwebsites.com",
   "marriott.com", "wyndhamhotels.com", "vacasa.com", "vacationstogo.com", "resortvacationstogo.com",
   "raymondjames.com", "visahq.com",
   "intermountainhealthcare.org", "dignitymemorial.com", "allstate.com",
   "dynadot.com", "afternic", "sedo", "atom.com", "clickfunnels.com",
   "chaturbate.com",
   ".gov",
   ".mx", ".uk", ".de", ".ru", ".ch", ".nl", ".it", ".fr", ".se", ".cn", ".pl", ".eu", ".br", ".jp", ".au", ".ca", ".nz",
   "zoneiraq.com"]

/-- Allowed Content-Language values inside the worker (line 29). -/
def ALLOWED_LANGUAGES : List String := ["en", "en-us"]

/-- HTML_SCRAPE_TERMS.strict (lines 36-51); matched case-sensitively by
`htmlContent.includes(term)`. -/
def HTML_SCRAPE_TERMS_strict : List String :=
  ["this domain is for sale",
   "buy this domain",
   "domain for sale",
   "parked free",
   "this site is parked",
   "this page is parked",
   "domain parking",
   "sedoparking",
   "sedo parking",
   "afternic",
   "namecheap marketplace",
   "domain is parked",
   "parking",
   "hosting"]

/-- HTML_SCRAPE_TERMS.regex (lines 52-60), each regex as its list of
alternatives; the optional group of the first pattern is expanded. -/
def HTML_SCRAPE_TERMS_regex : List (List (List RTok)) :=
  [[[RTok.lit "this", RTok.sp, RTok.lit "domain", RTok.sp, RTok.lit "is", RTok.sp,
     RTok.lit "currently", RTok.sp, RTok.lit "for", RTok.sp, RTok.lit "sale"],
    [RTok.lit "this", RTok.sp, RTok.lit "domain", RTok.sp, RTok.lit "is", RTok.sp,
     RTok.lit "for", RTok.sp, RTok.lit "sale"]],
   [[RTok.lit "buy", RTok.sp, RTok.lit "this", RTok.sp, RTok.lit "domain"]],
   [[RTok.lit "this", RTok.sp, RTok.lit "page", RTok.sp, RTok.lit "is", RTok.sp, RTok.lit "parked"]],
   [[RTok.lit "domain", RTok.sp, RTok.lit "parking"]],
   [[RTok.lit "sedoparking"]],
   [[RTok.lit "afternic"]],
   [[RTok.lit "click", RTok.sp, RTok.lit "here", RTok.sp, RTok.lit "to", RTok.sp, RTok.lit "buy"]]]

/-- The parking-content scan of lines 216-236: first matching strict term,
otherwise `match[0]` of the first matching regex. -/
def detectParkingTerm (htmlContent : String) : Option String :=
  match HTML_SCRAPE_TERMS_strict.find? (fun t => strContainsSub htmlContent t) with
  | some t => some t
  | none => firstRegexTerm HTML_SCRAPE_TERMS_regex htmlContent.data

/-! ## Data model of the prober. -/

/-- A JS status value: a numeric HTTP code, or the string sentinel
`"error"`. -/
inductive JsStatus
  | code (n : Int)
  | error
deriving DecidableEq

/-- The result object produced by `checkWebsite` (the `ProbeVerdict` of the
spec): `error_reason = none` models the absence of the field. -/
structure ProbeVerdict where
  domain : String
  list_number : String
  status : JsStatus
  error_reason : Option String
  pageSize : Int
  final_url : String
  language : String
deriving DecidableEq

/-- The argument object of `checkWebsite`: both fields may be absent. -/
structure DomainDataJS where
  domain : Option String
  list_number : Option String
deriving DecidableEq

/-- JS truthiness of an optional string: absent and `""` are falsy. -/
def jsTruthy : Option String → Bool
  | none => false
  | some s => !(s == "")

/-- The guard of line 90: `domainData` present with truthy `domain` and
`list_number`. -/
def isValidTask : Option DomainDataJS → Bool
  | none => false
  | some dd => jsTruthy dd.domain && jsTruthy dd.list_number

/-- The fetched response, as `checkWebsite` observes it. `contentLength`
models the `content-length` header after `parseInt`: outer `none` = header
absent, inner `none` = `parseInt` returned `NaN`. `body` is the text already
read; a body-read failure is folded into a fetch failure. -/
structure FetchResponse where
  status : Int
  url : String
  contentLanguage : Option String
  contentLength : Option (Option Int)
  body : String
deriving DecidableEq

/-- The network environment of one probe: the DNS answer and the outcome of
the `fetch` call (`Except.error msg` = the awaited promise rejected with an
error whose `message` is `msg`). -/
structure NetEnv where
  dnsOk : Bool
  fetch : Except String FetchResponse

/-- The verdict of lines 91-99 for invalid input. -/
def invalidVerdict : ProbeVerdict :=
  { domain := "unknown", list_number := "unknown", status := JsStatus.error,
    error_reason := some "Invalid domain data", pageSize := 0,
    final_url := "N/A", language := "N/A" }

/-- Continuation of `checkWebsite` after the language gate passed (lines
182-260): page-size measurement, the two size gates, the parking-content
scan, and the terminal good verdict. -/
def sizeAndContentGates (domain listNumber : String) (status : Int)
    (finalUrl language : String) (resp : FetchResponse) : ProbeVerdict :=
  let htmlContent := resp.body
  let pageSize : Int :=
    match resp.contentLength with
    | some (some n) => n
    | some none => 0
    | none => (utf8ByteLen htmlContent : Int)
  if pageSize < MIN_PAGE_SIZE then
    { domain := domain, list_number := listNumber, status := JsStatus.error,
      error_reason := some ("Page size too small (< " ++ toString MIN_PAGE_SIZE ++ " bytes)"),
      pageSize := pageSize, final_url := finalUrl, language := language }
  else if pageSize > MAX_PAGE_SIZE then
    { domain := domain, list_number := listNumber, status := JsStatus.error,
      error_reason := some ("Page size too large (> " ++ toString MAX_PAGE_SIZE ++ " bytes)"),
      pageSize := pageSize, final_url := finalUrl, language := language }
  else
    match detectParkingTerm htmlContent with
    | some term =>
      { domain := domain, list_number := listNumber, status := JsStatus.error,
        error_reason := some ("Parking page detected: \"" ++ term ++ "\""),
        pageSize := pageSize, final_url := finalUrl, language := language }
    | none =>
      { domain := domain, list_number := listNumber, status := JsStatus.code status,
        error_reason := none, pageSize := pageSize, final_url := finalUrl,
        language := language }

/-- Shallow embedding of `checkWebsite` (src/unnamed/part_002, first
document, lines 89-272). Every `return` of the source is one branch here; the
surrounding try/catch appears as the `Except.error` branch of `env.fetch`. -/
def checkWebsite (domainData : Option DomainDataJS) (env : NetEnv) : ProbeVerdict :=
  if !(isValidTask domainData) then invalidVerdict
  else
    let dd := domainData.getD { domain := none, list_number := none }
    let domain := jsTrim (dd.domain.getD "")
    let listNumber := jsTrim (dd.list_number.getD "")
    if !env.dnsOk then
      { domain := domain, list_number := listNumber, status := JsStatus.error,
        error_reason := some "DNS resolution failed", pageSize := 0,
        final_url := "N/A", language := "N/A" }
    else
      match env.fetch with
      | Except.error msg =>
        { domain := domain, list_number := listNumber, status := JsStatus.error,
          error_reason := some msg, pageSize := 0, final_url := "N/A",
          language := "N/A" }
      | Except.ok resp =>
        let status := resp.status
        let finalUrl := jsToLower resp.url
        if !(ACCEPTED_STATUS_CODES.contains status) then
          { domain := domain, list_number := listNumber, status := JsStatus.error,
            error_reason := some ("Unaccepted status code (" ++ toString status ++ ")"),
            pageSize := 0, final_url := finalUrl, language := "N/A" }
        else if FILTERED_TERMS.any (fun term => strContainsSub finalUrl term)
                || wwSubdomainTest finalUrl then
          { domain := domain, list_number := listNumber, status := JsStatus.error,
            error_reason := some "Filtered (Final URL contains a blocked term or ww## subdomain)",
            pageSize := 0, final_url := finalUrl, language := "N/A" }
        else
          match resp.contentLanguage with
          | some header =>
            let language := jsToLower header
            if !(ALLOWED_LANGUAGES.contains language) then
              { domain := domain, list_number := listNumber, status := JsStatus.error,
                error_reason := some ("Bad language header (" ++ language ++ ")"),
                pageSize := 0, final_url := finalUrl, language := language }
            else
              sizeAndContentGates domain listNumber status finalUrl language resp
          | none =>
            sizeAndContentGates domain listNumber status finalUrl "N/A" resp

/-! ## Classifier and dispatcher (src/server.js, first document, lines
199-283: `ALLOWED_LANGUAGES` and `processCSV`). -/

/-- The accepted language codes used by the server-side classifier
(src/server.js line 199). -/
def ALLOWED_LANGUAGES_SERVER : List String :=
  ["en", "en-us", "en-gb", "en-ca", "en-au", "en-nz", "en-in"]

/-- The classification predicate of src/server.js lines 240-251: no error
status, positive page size, and language either the `"n/a"` sentinel or a
member of the allowed list (the classifier is shared by the poller of
src/unnamed/part_004 lines 56-65, which injects its own allowed list). -/
def isGoodResult (allowed : List String) (data : ProbeVerdict) : Bool :=
  let normalizedLanguage := jsToLower data.language
  let isAllowedLanguage := normalizedLanguage == "n/a" || allowed.contains normalizedLanguage
  !(data.status == JsStatus.error) && data.pageSize > 0 && isAllowedLanguage

/-- One CSV row as the `data` handler of src/server.js line 207 sees it:
either column may be missing or empty. -/
structure CsvRow where
  domain : Option String
  list_number : Option String
deriving DecidableEq

/-- A validated task: both columns present, truthy and trimmed (src/server.js
lines 208-212). -/
structure DomainData where
  domain : String
  list_number : String
deriving DecidableEq

/-- Row validation and trimming of src/server.js lines 208-212: rows with a
missing or empty column produce no task. -/
def validRow (r : CsvRow) : Option DomainData :=
  if jsTruthy r.domain && jsTruthy r.list_number then
    some { domain := jsTrim (r.domain.getD ""), list_number := jsTrim (r.list_number.getD "") }
  else none

/-- Outcome of one `pool.exec("checkWebsite", ...).timeout(10000)` call:
fulfilled with the worker's verdict, rejected by the 10 s timeout, or
rejected by an unexpected worker exception carrying a message. -/
inductive ExecOutcome
  | value (v : ProbeVerdict)
  | timeout
  | failure (msg : String)
deriving DecidableEq

/-- The substitute record of the per-task `.catch` handler (src/server.js
lines 216-224). The handler ignores the rejection entirely, so a timeout and
any other rejection produce the same record. -/
def timeoutRecord (d : DomainData) : ProbeVerdict :=
  { domain := d.domain, list_number := d.list_number, status := JsStatus.error,
    error_reason := some "Timeout exceeded", pageSize := 0,
    final_url := "N/A", language := "N/A" }

/-- Value of the task promise `pool.exec(...).timeout(10000).catch(...)`:
the per-task catch converts every rejection into the substitute record. -/
def taskResult (d : DomainData) (o : ExecOutcome) : ProbeVerdict :=
  match o with
  | ExecOutcome.value v => v
  | ExecOutcome.timeout => timeoutRecord d
  | ExecOutcome.failure _ => timeoutRecord d

/-- An element of the `Promise.allSettled` result array. -/
inductive SettledResult
  | fulfilled (v : ProbeVerdict)
  | rejected
deriving DecidableEq

/-- How one task settles: the per-task catch never lets the promise reject,
so the settled result is always `fulfilled`. -/
def settledOf (d : DomainData) (o : ExecOutcome) : SettledResult :=
  SettledResult.fulfilled (taskResult d o)

/-- The synthetic record of the rejected branch of the settle loop
(src/server.js lines 258-266). -/
def workerFailedRecord : ProbeVerdict :=
  { domain := "unknown", list_number := "unknown", status := JsStatus.error,
    error_reason := some "Worker thread failed", pageSize := 0,
    final_url := "N/A", language := "N/A" }

/-- One iteration of the `results.forEach` classification loop (src/server.js
lines 236-268): fulfilled verdicts are pushed to good or bad by
`isGoodResult`, rejected outcomes push the synthetic record to bad. -/
def classifyStep (allowed : List String) (acc : List ProbeVerdict × List ProbeVerdict)
    (s : SettledResult) : List ProbeVerdict × List ProbeVerdict :=
  match s with
  | SettledResult.fulfilled data =>
    if isGoodResult allowed data then (acc.1 ++ [data], acc.2)
    else (acc.1, acc.2 ++ [data])
  | SettledResult.rejected => (acc.1, acc.2 ++ [workerFailedRecord])

/-- The tasks built by the CSV `data` handler: one per valid row, paired with
the exec outcome its worker call would have. -/
def csvTasks (pairs : List (CsvRow × ExecOutcome)) : List (DomainData × ExecOutcome) :=
  pairs.filterMap (fun p => (validRow p.1).map (fun d => (d, p.2)))

/-- The per-task records after the per-task catch: one per valid row. -/
def csvRecords (pairs : List (CsvRow × ExecOutcome)) : List ProbeVerdict :=
  (csvTasks pairs).map (fun p => taskResult p.1 p.2)

/-- The classification phase of `processCSV` (src/server.js lines 201-283):
build the tasks, settle them all, and fold the classification loop, returning
(goodResults, badResults). The CSV writing and sorting that follow do not
change the two lists' membership. -/
def processCSVResults (allowed : List String) (pairs : List (CsvRow × ExecOutcome)) :
    List ProbeVerdict × List ProbeVerdict :=
  let settled := (csvTasks pairs).map (fun p => settledOf p.1 p.2)
  settled.foldl (classifyStep allowed) ([], [])

/-! ## MongoDB upsert semantics, shared by `uploadToMongoDB` (src/server.js,
second document, lines 423-463) and the bad-docs service
(src/unnamed/part_003, second document). -/

/-- One `updateOne ... upsert: true` operation as built by both bulk writers:
filter on the lower-cased domain, `$set` all record fields with the domain
lower-cased. -/
structure UpsertOp where
  key : String
  doc : ProbeVerdict
deriving DecidableEq

/-- Build the bulk operation for one record (src/unnamed/part_003 lines
128-137; identically src/server.js lines 444-453). -/
def mkUpsertOp (doc : ProbeVerdict) : UpsertOp :=
  { key := jsToLower doc.domain, doc := { doc with domain := jsToLower doc.domain } }

/-- A stored document: the `$set` fields plus the two timestamps
(`updatedAt` from `$set`, `createdAt` from `$setOnInsert`). -/
structure StoredDoc where
  fields : ProbeVerdict
  createdAt : Nat
  updatedAt : Nat
deriving DecidableEq

/-- Apply one upsert at time `now`: update the first document matching the
filter, keeping its `createdAt`; if none matches, insert a fresh document
with both timestamps set to `now`. -/
def applyUpsertOp (now : Nat) (store : List StoredDoc) (op : UpsertOp) : List StoredDoc :=
  match store with
  | [] => [{ fields := op.doc, createdAt := now, updatedAt := now }]
  | d :: rest =>
    if d.fields.domain == op.key then
      { fields := op.doc, createdAt := d.createdAt, updatedAt := now } :: rest
    else d :: applyUpsertOp now rest op

/-- Apply a list of upserts in order, each with its own wall-clock time. -/
def applyOps (store : List StoredDoc) (ops : List (UpsertOp × Nat)) : List StoredDoc :=
  ops.foldl (fun s p => applyUpsertOp p.2 s p.1) store

/-- Number of stored documents whose domain equals `k`. -/
def countKey (store : List StoredDoc) (k : String) : Nat :=
  (store.filter (fun d => d.fields.domain == k)).length

/-- First stored document whose domain equals `k`. -/
def findKey (store : List StoredDoc) (k : String) : Option StoredDoc :=
  store.find? (fun d => d.fields.domain == k)

/-! ## Deferred bulk writer (src/unnamed/part_003, second document:
`processQueue` lines 112-148, `addResultsQueue` lines 154-166). -/

/-- Result of one `processQueue` call: the queue left behind and the bulk
operations of the single `bulkWrite` that was issued, if any. -/
structure FlushResult where
  queue : List ProbeVerdict
  issued : Option (List UpsertOp)
deriving DecidableEq

/-- Shallow embedding of `processQueue`. `initialized` is the
`mongoClient !== null` guard; `during` are the records that
`addResultsQueue` appends to the (already cleared) queue while the
`bulkWrite` is awaited; `writeOk` says whether the `bulkWrite` promise
fulfilled. On failure the snapshot is prepended: `queue = docsToProcess
.concat(queue)` (line 146). When the queue is empty the function returns
before any await, so no concurrent enqueue interleaves. -/
def processQueue (initialized : Bool) (queue during : List ProbeVerdict)
    (writeOk : Bool) : FlushResult :=
  if !initialized then { queue := queue, issued := none }
  else if queue.isEmpty then { queue := queue, issued := none }
  else
    let docsToProcess := queue
    let bulkOps := docsToProcess.map mkUpsertOp
    if writeOk then { queue := during, issued := some bulkOps }
    else { queue := docsToProcess ++ during, issued := some bulkOps }

/-! ## Stats aggregation (src/server.js, second document, lines 378-422). -/

/-- Increment one list-number entry of the aggregation map, preserving JS
object-key insertion order (`aggregateCountsByListNumber`, lines 395-422);
an entry is `(list_number, good count, bad count)`. -/
def addCount (isGood : Bool) (m : List (String × Nat × Nat)) (ln : String) :
    List (String × Nat × Nat) :=
  match m with
  | [] => [(ln, if isGood then (1, 0) else (0, 1))]
  | (k, g, b) :: rest =>
    if k == ln then
      (k, if isGood then (g + 1, b) else (g, b + 1)) :: rest
    else (k, g, b) :: addCount isGood rest ln

/-- `aggregateCountsByListNumber(goodResults, badResults)`. -/
def aggregateCountsByListNumber (goodResults badResults : List ProbeVerdict) :
    List (String × Nat × Nat) :=
  let m1 := goodResults.foldl (fun m d => addCount true m d.list_number) []
  badResults.foldl (fun m d => addCount false m d.list_number) m1

/-! ## Poller (src/unnamed/part_004: `processBatch` lines 11-91,
`pollToBeScanned` lines 94-106) and the persistence call it awaits
(`uploadToMongoDB`, src/server.js second document lines 424-463). -/

/-- One pending entry of the `to_be_scanned` collection: an opaque `_id`
identity plus the task fields. -/
structure QueueDoc where
  id : Nat
  domain : String
  list_number : String
deriving DecidableEq

/-- Outcome of one poller worker call: fulfilled with a verdict, or rejected
(timeout or worker exception) with `error.message` (`none` models an absent
message). -/
inductive PollerOutcome
  | value (v : ProbeVerdict)
  | rejectedWith (msg : Option String)
deriving DecidableEq

/-- JS `error.message || "Timeout exceeded"`: an absent or empty message
falls back to the default. -/
def jsOrDefault (msg : Option String) (dflt : String) : String :=
  match msg with
  | some m => if m == "" then dflt else m
  | none => dflt

/-- The substitute record of the poller's per-task `.catch` handler
(src/unnamed/part_004 lines 40-48). -/
def pollerCatchRecord (d : QueueDoc) (msg : Option String) : ProbeVerdict :=
  { domain := d.domain, list_number := d.list_number, status := JsStatus.error,
    error_reason := some (jsOrDefault msg "Timeout exceeded"), pageSize := 0,
    final_url := "N/A", language := "N/A" }

/-- Value of one poller task promise after its catch. -/
def pollerTaskResult (d : QueueDoc) (o : PollerOutcome) : ProbeVerdict :=
  match o with
  | PollerOutcome.value v => v
  | PollerOutcome.rejectedWith msg => pollerCatchRecord d msg

/-- The poller's settled task records, one per queue document. -/
def pollerSettled (docs : List QueueDoc) (outs : List PollerOutcome) : List ProbeVerdict :=
  List.zipWith pollerTaskResult docs outs

/-- The poller's classification (src/unnamed/part_004 lines 52-77): same
settle loop as the server, over always-fulfilled task promises. -/
def pollerClassify (allowed : List String) (docs : List QueueDoc)
    (outs : List PollerOutcome) : List ProbeVerdict × List ProbeVerdict :=
  ((pollerSettled docs outs).map SettledResult.fulfilled).foldl (classifyStep allowed) ([], [])

/-- One observable store action of a poller run. -/
inductive BatchEvent
  | readQueue (n : Nat)
  | goodBulk (ops : List UpsertOp)
  | badBulk (ops : List UpsertOp)
  | statsInsert (docs : List (String × Nat × Nat))
  | deleteIds (ids : List Nat)
deriving DecidableEq

/-- Trace of `uploadToMongoDB(goodResults, badResults)` (src/server.js,
second document, lines 424-463): the try block issues the good bulk write,
then the bad bulk write; a bulk failure is caught and logged, aborting only
the remainder of the try block; the stats insert runs after the catch and is
not guarded, so its failure rejects the whole call. Returns the issued
actions and whether the call rejected. -/
def uploadTrace (goodResults badResults : List ProbeVerdict)
    (goodOk badOk statsOk : Bool) : List BatchEvent × Bool :=
  let goodEvents : List BatchEvent :=
    if goodResults.isEmpty then [] else [BatchEvent.goodBulk (goodResults.map mkUpsertOp)]
  let goodThrew := !goodResults.isEmpty && !goodOk
  let badEvents : List BatchEvent :=
    if goodThrew || badResults.isEmpty then []
    else [BatchEvent.badBulk (badResults.map mkUpsertOp)]
  let _ := badOk
  let statsDocs := aggregateCountsByListNumber goodResults badResults
  let statsEvents : List BatchEvent :=
    if statsDocs.isEmpty then [] else [BatchEvent.statsInsert statsDocs]
  let threw := !statsDocs.isEmpty && !statsOk
  (goodEvents ++ badEvents ++ statsEvents, threw)

/-- Trace of one `processBatch()` run (src/unnamed/part_004 lines 11-91).
`readOk` = the queue read succeeded (a failure is caught by the run's own
catch before anything else happens); `goodOk`/`badOk`/`statsOk` are the
persistence outcomes. The deletion of the consumed entries by `_id` happens
only after `uploadToMongoDB` resolved; if that call rejects, the run's catch
skips the deletion. The `badOk` flag changes no observable action because a
bad-bulk failure is caught inside `uploadToMongoDB` with nothing left in its
try block. -/
def processBatchTrace (allowed : List String) (docs : List QueueDoc)
    (outs : List PollerOutcome) (readOk goodOk badOk statsOk : Bool) :
    List BatchEvent :=
  if !readOk then []
  else if docs.isEmpty then [BatchEvent.readQueue 0]
  else
    let cls := pollerClassify allowed docs outs
    let up := uploadTrace cls.1 cls.2 goodOk badOk statsOk
    BatchEvent.readQueue docs.length ::
      (up.1 ++ (if up.2 then [] else [BatchEvent.deleteIds (docs.map (fun d => d.id))]))

/-- One trigger of `pollToBeScanned` (src/unnamed/part_004 lines 94-106):
if the mutual-exclusion flag is held the trigger returns at once with no
action; otherwise the flag is taken, the batch runs (producing
`batchEvents`), and the `finally` clause releases the flag whether the
batch resolved or threw (`batchThrew`). Returns the flag after the run and
the actions performed. -/
def pollTick (isProcessing : Bool) (batchEvents : List BatchEvent)
    (batchThrew : Bool) : Bool × List BatchEvent :=
  if isProcessing then (isProcessing, [])
  else
    let _ := batchThrew
    (false, batchEvents)

/-! ## Helper lemmas. -/

/-- Folding the classification loop over fulfilled results appends the good
and bad partitions of the records to the accumulators. -/
theorem classifyStep_foldl (allowed : List String) (rs : List ProbeVerdict)
    (g0 b0 : List ProbeVerdict) :
    (rs.map SettledResult.fulfilled).foldl (classifyStep allowed) (g0, b0)
      = (g0 ++ rs.filter (fun v => isGoodResult allowed v),
         b0 ++ rs.filter (fun v => !(isGoodResult allowed v))) := by
  induction rs generalizing g0 b0 with
  | nil => simp
  | cons v vs ih =>
    cases hv : isGoodResult allowed v with
    | true =>
      simp only [List.map_cons, List.foldl_cons, classifyStep, hv, if_pos rfl, ih,
        List.filter_cons, Bool.not_true, List.append_assoc, List.singleton_append]
      simp [hv]
    | false =>
      simp only [List.map_cons, List.foldl_cons, classifyStep, hv, ih,
        List.filter_cons, Bool.not_false, List.append_assoc, List.singleton_append]
      simp [hv]

/-- `processCSVResults` computes the good/bad partition of the per-task
records. -/
theorem processCSVResults_eq (allowed : List String)
    (pairs : List (CsvRow × ExecOutcome)) :
    processCSVResults allowed pairs
      = ((csvRecords pairs).filter (fun v => isGoodResult allowed v),
         (csvRecords pairs).filter (fun v => !(isGoodResult allowed v))) := by
  unfold processCSVResults csvRecords
  have hmap : (csvTasks pairs).map (fun p => settledOf p.1 p.2)
      = ((csvTasks pairs).map (fun p => taskResult p.1 p.2)).map SettledResult.fulfilled := by
    simp [settledOf, List.map_map, Function.comp]
  rw [hmap, classifyStep_foldl]
  simp

/-- A Boolean filter and its negation partition a list's length. -/
theorem length_filter_partition {α : Type} (p : α → Bool) (rs : List α) :
    (rs.filter p).length + (rs.filter (fun v => !(p v))).length = rs.length := by
  induction rs with
  | nil => rfl
  | cons v vs ih => cases hv : p v <;> simp [List.filter_cons, hv] <;> omega

/-- Count over a cons cell. -/
theorem countKey_cons (d : StoredDoc) (rest : List StoredDoc) (k : String) :
    countKey (d :: rest) k
      = (if d.fields.domain == k then 1 else 0) + countKey rest k := by
  unfold countKey
  cases hd : (d.fields.domain == k)
  · simp [List.filter_cons, hd]
  · simp [List.filter_cons, hd]
    omega

/-- Count distributes over append. -/
theorem countKey_append (s1 s2 : List StoredDoc) (k : String) :
    countKey (s1 ++ s2) k = countKey s1 k + countKey s2 k := by
  unfold countKey
  rw [List.filter_append, List.length_append]

/-- An upsert into a store with no matching document appends a fresh
document timestamped `now` on both fields. -/
theorem applyUpsertOp_fresh (now : Nat) (store : List StoredDoc) (op : UpsertOp)
    (h : countKey store op.key = 0) :
    applyUpsertOp now store op
      = store ++ [{ fields := op.doc, createdAt := now, updatedAt := now }] := by
  induction store with
  | nil => rfl
  | cons d rest ih =>
    rw [countKey_cons] at h
    cases hd : (d.fields.domain == op.key) with
    | true => rw [hd] at h; simp at h
    | false =>
      rw [hd] at h
      simp only [if_neg Bool.false_ne_true, Nat.zero_add] at h
      simp [applyUpsertOp, hd, ih h]

/-- An upsert into a store whose only matching document is the appended last
element updates that element in place, keeping its creation time. -/
theorem applyUpsertOp_append_match (t : Nat) (store : List StoredDoc) (x : StoredDoc)
    (op : UpsertOp) (hx : (x.fields.domain == op.key) = true)
    (h : countKey store op.key = 0) :
    applyUpsertOp t (store ++ [x]) op
      = store ++ [{ fields := op.doc, createdAt := x.createdAt, updatedAt := t }] := by
  induction store with
  | nil => simp [applyUpsertOp, hx]
  | cons d rest ih =>
    rw [countKey_cons] at h
    cases hd : (d.fields.domain == op.key) with
    | true => rw [hd] at h; simp at h
    | false =>
      rw [hd] at h
      simp only [if_neg Bool.false_ne_true, Nat.zero_add] at h
      simp [applyUpsertOp, hd, ih h]

/-- Searching past a prefix with no matching document. -/
theorem findKey_append_fresh (store l : List StoredDoc) (k : String)
    (h : countKey store k = 0) :
    findKey (store ++ l) k = findKey l k := by
  induction store with
  | nil => rfl
  | cons d rest ih =>
    rw [countKey_cons] at h
    cases hd : (d.fields.domain == k) with
    | true => rw [hd] at h; simp at h
    | false =>
      rw [hd] at h
      simp only [if_neg Bool.false_ne_true, Nat.zero_add] at h
      simp [findKey, List.find?_cons, hd] at ih ⊢
      exact ih h

/-- Effect of one upsert on the count of its own key. -/
theorem countKey_applyUpsertOp (now : Nat) (store : List StoredDoc) (op : UpsertOp)
    (hop : (op.doc.domain == op.key) = true) :
    countKey (applyUpsertOp now store op) op.key
      = if countKey store op.key = 0 then 1 else countKey store op.key := by
  induction store with
  | nil => simp [applyUpsertOp, countKey, hop]
  | cons d rest ih =>
    cases hd : (d.fields.domain == op.key) with
    | true =>
      have e1 : applyUpsertOp now (d :: rest) op
          = { fields := op.doc, createdAt := d.createdAt, updatedAt := now } :: rest := by
        simp [applyUpsertOp, hd]
      rw [e1, countKey_cons, countKey_cons, hd, hop]
      simp
    | false =>
      have e1 : applyUpsertOp now (d :: rest) op = d :: applyUpsertOp now rest op := by
        simp [applyUpsertOp, hd]
      rw [e1, countKey_cons, countKey_cons, hd, ih]
      simp

/-- A bulk of upserts all keyed `k` leaves at most one `k`-document in any
store that started with at most one. -/
theorem countKey_applyOps_le_one (store : List StoredDoc)
    (ops : List (UpsertOp × Nat)) (k : String)
    (hops : ∀ p ∈ ops, (p.1.doc.domain == k) = true ∧ p.1.key = k)
    (h : countKey store k ≤ 1) :
    countKey (applyOps store ops) k ≤ 1 := by
  induction ops generalizing store with
  | nil => exact h
  | cons p ps ih =>
    have hp := hops p (List.mem_cons_self p ps)
    have hstep : countKey (applyUpsertOp p.2 store p.1) k ≤ 1 := by
      have := countKey_applyUpsertOp p.2 store p.1 (by rw [hp.2]; exact hp.1)
      rw [hp.2] at this
      rw [this]
      split <;> omega
    have hops2 : ∀ q ∈ ps, (q.1.doc.domain == k) = true ∧ q.1.key = k :=
      fun q hq => hops q (List.mem_cons_of_mem p hq)
    exact ih (applyUpsertOp p.2 store p.1) hops2 hstep

/-- In the continuation after the language gate, the status is the error
sentinel exactly when a failure reason was recorded. -/
theorem sizeAndContentGates_err_iff (domain ln : String) (st : Int)
    (fu lang : String) (resp : FetchResponse) :
    ((sizeAndContentGates domain ln st fu lang resp).status = JsStatus.error
      ↔ (sizeAndContentGates domain ln st fu lang resp).error_reason ≠ none) := by
  unfold sizeAndContentGates
  dsimp only
  split
  · simp
  · split
    · simp
    · split
      · simp
      · simp

/-! ## Claim theorems. -/

/-- C1. For every input task — including an absent task or one missing the
domain or the list number — and every network environment (DNS failure,
fetch rejection, any gate combination), `checkWebsite` returns a verdict
whose status is the error sentinel exactly when a failure reason was
recorded: the embedding is total over all environments, so no failure mode
escapes as an exception, and each one is captured in `error_reason`. -/
theorem prober_never_throws_captures_failures (task : Option DomainDataJS)
    (env : NetEnv) :
    (checkWebsite task env).status = JsStatus.error ↔
      (checkWebsite task env).error_reason ≠ none := by
  obtain ⟨dnsOk, fetch⟩ := env
  unfold checkWebsite
  dsimp only
  split
  · simp [invalidVerdict]
  · split
    · simp
    · cases fetch with
      | error msg => simp
      | ok resp =>
        dsimp only
        split
        · simp
        · split
          · simp
          · cases hcl : resp.contentLanguage with
            | some header =>
              dsimp only
              split
              · simp
              · exact sizeAndContentGates_err_iff _ _ _ _ _ _
            | none => exact sizeAndContentGates_err_iff _ _ _ _ _ _

/-- C2. The classifier is a pure function of the verdict: a fulfilled verdict
is good exactly when its status is not the error sentinel, its page size is
strictly positive, and its lower-cased language is the `"n/a"` unknown
sentinel or a member of the allowed list; and the bad list of a dispatcher
run consists of the prober's verdicts themselves, so a bad record's reason is
exactly the failure reason the prober captured. -/
theorem classifier_pure_function (allowed : List String) (v : ProbeVerdict)
    (pairs : List (CsvRow × ExecOutcome)) :
    (isGoodResult allowed v = true ↔
      (v.status ≠ JsStatus.error ∧ 0 < v.pageSize ∧
        (jsToLower v.language = "n/a" ∨ jsToLower v.language ∈ allowed)))
    ∧ (processCSVResults allowed pairs).2
        = (csvRecords pairs).filter (fun r => !(isGoodResult allowed r)) := by
  constructor
  · unfold isGoodResult
    simp [and_assoc]
  · rw [processCSVResults_eq]

/-- C3 counterexample. A timed-out task's record carries the reason
`"Timeout exceeded"` (capital T), not the claimed literal
`"timeout exceeded"`. -/
theorem dispatcher_timeout_reason_cex :
    ((processCSVResults ALLOWED_LANGUAGES_SERVER
        [({ domain := some "x.com", list_number := some "1" }, ExecOutcome.timeout)]).2.map
          (fun v => v.error_reason) = [some "Timeout exceeded"])
    ∧ ¬((processCSVResults ALLOWED_LANGUAGES_SERVER
        [({ domain := some "x.com", list_number := some "1" }, ExecOutcome.timeout)]).2.map
          (fun v => v.error_reason) = [some "timeout exceeded"]) := by
  decide

/-- C3 (amended: the timeout reason literal is `"Timeout exceeded"`). The
dispatcher produces exactly one record per valid input task whatever the
individual outcomes; the good and bad lists are pointwise filters of the
per-task records, so each task's record depends only on that task's own
outcome and sibling records are unaffected; and a timed-out task resolves to
the bad substitute record with error status, page size 0, and reason
`"Timeout exceeded"`. -/
theorem dispatcher_one_record_per_task (allowed : List String)
    (pairs : List (CsvRow × ExecOutcome)) :
    ((processCSVResults allowed pairs).1.length
        + (processCSVResults allowed pairs).2.length = (csvTasks pairs).length)
    ∧ (processCSVResults allowed pairs).1
        = (csvRecords pairs).filter (fun v => isGoodResult allowed v)
    ∧ (processCSVResults allowed pairs).2
        = (csvRecords pairs).filter (fun v => !(isGoodResult allowed v))
    ∧ (∀ d : DomainData,
        taskResult d ExecOutcome.timeout = timeoutRecord d
        ∧ isGoodResult allowed (timeoutRecord d) = false
        ∧ (timeoutRecord d).status = JsStatus.error
        ∧ (timeoutRecord d).pageSize = 0
        ∧ (timeoutRecord d).error_reason = some "Timeout exceeded") := by
  refine ⟨?_, ?_, ?_, ?_⟩
  · rw [processCSVResults_eq]
    have h := length_filter_partition (fun v => isGoodResult allowed v) (csvRecords pairs)
    simpa [csvRecords] using h
  · rw [processCSVResults_eq]
  · rw [processCSVResults_eq]
  · intro d
    exact ⟨rfl, by simp [isGoodResult, timeoutRecord], rfl, rfl, rfl⟩

/-- A concrete task used to exercise the final-URL gate. -/
def sedoTask : Option DomainDataJS :=
  some { domain := some "example.com", list_number := some "5" }

/-- A concrete response with an unaccepted status (404) whose final URL
contains the blocked term `"sedo"`. -/
def sedoResp404 : FetchResponse :=
  { status := 404, url := "http://SedoParking.com/x", contentLanguage := none,
    contentLength := some (some 2000), body := "" }

/-- A concrete response with an accepted status (200) whose final URL
contains the blocked term `"sedo"`. -/
def sedoResp200 : FetchResponse :=
  { status := 200, url := "http://SedoParking.com/x", contentLanguage := none,
    contentLength := some (some 2000), body := "" }

/-- C4 counterexample. A probe whose final URL contains the blocked term
`"sedo"` but whose status code is unaccepted (404) is rejected by the status
gate first: the recorded reason names the status code and does not cite the
blocked term, so the claim's "regardless of the HTTP status code" fails. -/
theorem blocked_url_claim_cex :
    (strContainsSub (checkWebsite sedoTask
        { dnsOk := true, fetch := Except.ok sedoResp404 }).final_url "sedo" = true)
    ∧ ((checkWebsite sedoTask
        { dnsOk := true, fetch := Except.ok sedoResp404 }).error_reason
          = some "Unaccepted status code (404)")
    ∧ (strContainsSub ((checkWebsite sedoTask
        { dnsOk := true, fetch := Except.ok sedoResp404 }).error_reason.getD "")
          "sedo" = false) := by
  decide

/-- C4 (amended: the gate applies only to responses whose status code is in
the accepted set {200, 301}, and the recorded reason is the fixed filter
message, which does not name the specific matched term). Whenever a valid
task resolves and fetches a response with an accepted status whose final URL
(lower-cased) contains a configured blocked term, the verdict is the
blocked-URL failure — with reason `"Filtered (Final URL contains a blocked
term or ww## subdomain)"` — regardless of the payload size, body, or
language headers, and it is classified bad under every allowed-language
list. -/
theorem blocked_final_url_gate (dd : DomainDataJS) (env : NetEnv)
    (resp : FetchResponse)
    (hvalid : isValidTask (some dd) = true)
    (hdns : env.dnsOk = true)
    (hfetch : env.fetch = Except.ok resp)
    (hstatus : ACCEPTED_STATUS_CODES.contains resp.status = true)
    (hterm : FILTERED_TERMS.any (fun term => strContainsSub (jsToLower resp.url) term) = true) :
    checkWebsite (some dd) env
      = { domain := jsTrim (dd.domain.getD ""),
          list_number := jsTrim (dd.list_number.getD ""),
          status := JsStatus.error,
          error_reason := some "Filtered (Final URL contains a blocked term or ww## subdomain)",
          pageSize := 0, final_url := jsToLower resp.url, language := "N/A" }
    ∧ (∀ langs : List String, isGoodResult langs (checkWebsite (some dd) env) = false) := by
  have hmain : checkWebsite (some dd) env
      = { domain := jsTrim (dd.domain.getD ""),
          list_number := jsTrim (dd.list_number.getD ""),
          status := JsStatus.error,
          error_reason := some "Filtered (Final URL contains a blocked term or ww## subdomain)",
          pageSize := 0, final_url := jsToLower resp.url, language := "N/A" } := by
    have hmem : resp.status ∈ ACCEPTED_STATUS_CODES := by
      simpa using hstatus
    unfold checkWebsite
    simp [hvalid, hdns, hfetch, hmem, hterm]
  refine ⟨hmain, fun langs => ?_⟩
  rw [hmain]
  simp [isGoodResult]

/-- Witness for C4's amended theorem at a concrete input: status 200, final
URL containing `"sedo"`, large payload. -/
theorem blocked_final_url_gate_witness :
    checkWebsite sedoTask { dnsOk := true, fetch := Except.ok sedoResp200 }
      = { domain := "example.com", list_number := "5", status := JsStatus.error,
          error_reason := some "Filtered (Final URL contains a blocked term or ww## subdomain)",
          pageSize := 0, final_url := "http://sedoparking.com/x", language := "N/A" } := by
  have h := blocked_final_url_gate
    { domain := some "example.com", list_number := some "5" }
    { dnsOk := true, fetch := Except.ok sedoResp200 } sedoResp200
    (by decide) rfl rfl (by decide) (by decide)
  exact h.1.trans (by decide)

/-- C5. The deferred writer's flush is a no-op on an empty buffer (no bulk
write issued); otherwise it snapshots the buffer, clears it, and issues one
bulk upsert built from the snapshot; on write failure the snapshot is
prepended in front of the records enqueued during the flush, so no record is
lost and older records precede newer ones. -/
theorem deferred_flush_spec (init : Bool) (q during : List ProbeVerdict)
    (ok : Bool) :
    (q = [] → processQueue init q during ok = { queue := q, issued := none })
    ∧ (init = true → q ≠ [] →
        (processQueue init q during ok).issued = some (q.map mkUpsertOp)
        ∧ (ok = true → (processQueue init q during ok).queue = during)
        ∧ (ok = false → (processQueue init q during ok).queue = q ++ during)) := by
  constructor
  · intro hq
    subst hq
    unfold processQueue
    cases init <;> simp
  · intro hinit hq
    subst hinit
    have hne : q.isEmpty = false := by
      cases q with
      | nil => exact absurd rfl hq
      | cons a l => rfl
    unfold processQueue
    cases ok <;> simp [hne]

/-- Sample bad record for exercising the deferred flush. -/
def flushRec1 : ProbeVerdict :=
  { domain := "alpha.com", list_number := "1", status := JsStatus.error,
    error_reason := some "DNS resolution failed", pageSize := 0,
    final_url := "N/A", language := "N/A" }

/-- Second sample bad record, enqueued while the flush is in flight. -/
def flushRec2 : ProbeVerdict :=
  { domain := "beta.com", list_number := "2", status := JsStatus.error,
    error_reason := some "Timeout exceeded", pageSize := 0,
    final_url := "N/A", language := "N/A" }

/-- Witness for C5 at a concrete failing flush with one concurrent
enqueue. -/
theorem deferred_flush_spec_witness :
    (processQueue true [flushRec1] [flushRec2] false).issued
        = some [mkUpsertOp flushRec1]
    ∧ (processQueue true [flushRec1] [flushRec2] false).queue
        = [flushRec1, flushRec2] := by
  have h := (deferred_flush_spec true [flushRec1] [flushRec2] false).2 rfl (by decide)
  exact ⟨h.1.trans (by decide), (h.2.2 rfl).trans (by decide)⟩

/-- C6. Upserting two records of the same domain (in any letter case) into a
store with no document for that domain leaves exactly one stored document,
keyed by the lower-cased domain: its fields are those of the later record,
its update timestamp is the later write's time, and its creation timestamp is
the first write's time (and the first write set both timestamps). -/
theorem bad_upsert_idempotent (store : List StoredDoc) (r1 r2 : ProbeVerdict)
    (t1 t2 : Nat) (hk : jsToLower r1.domain = jsToLower r2.domain)
    (h0 : countKey store (jsToLower r2.domain) = 0) :
    countKey (applyOps store [(mkUpsertOp r1, t1), (mkUpsertOp r2, t2)])
        (jsToLower r2.domain) = 1
    ∧ findKey (applyOps store [(mkUpsertOp r1, t1), (mkUpsertOp r2, t2)])
        (jsToLower r2.domain)
        = some { fields := (mkUpsertOp r2).doc, createdAt := t1, updatedAt := t2 }
    ∧ findKey (applyOps store [(mkUpsertOp r1, t1)]) (jsToLower r2.domain)
        = some { fields := (mkUpsertOp r1).doc, createdAt := t1, updatedAt := t1 } := by
  have h01 : countKey store (mkUpsertOp r1).key = 0 := by
    show countKey store (jsToLower r1.domain) = 0
    rw [hk]
    exact h0
  have e1 : applyUpsertOp t1 store (mkUpsertOp r1)
      = store ++ [{ fields := (mkUpsertOp r1).doc, createdAt := t1, updatedAt := t1 }] :=
    applyUpsertOp_fresh t1 store _ h01
  have hx : (({ fields := (mkUpsertOp r1).doc, createdAt := t1, updatedAt := t1 } :
        StoredDoc).fields.domain == (mkUpsertOp r2).key) = true := by
    show ((mkUpsertOp r1).doc.domain == (mkUpsertOp r2).key) = true
    show (jsToLower r1.domain == jsToLower r2.domain) = true
    simp [hk]
  have e2 : applyUpsertOp t2
        (store ++ [{ fields := (mkUpsertOp r1).doc, createdAt := t1, updatedAt := t1 }])
        (mkUpsertOp r2)
      = store ++ [{ fields := (mkUpsertOp r2).doc, createdAt := t1, updatedAt := t2 }] :=
    applyUpsertOp_append_match t2 store _ _ hx h0
  have eops2 : applyOps store [(mkUpsertOp r1, t1), (mkUpsertOp r2, t2)]
      = applyUpsertOp t2 (applyUpsertOp t1 store (mkUpsertOp r1)) (mkUpsertOp r2) := rfl
  refine ⟨?_, ?_, ?_⟩
  · rw [eops2, e1, e2, countKey_append, h0, countKey_cons]
    simp [mkUpsertOp, countKey]
  · rw [eops2, e1, e2, findKey_append_fresh store _ _ h0]
    simp [findKey, List.find?, mkUpsertOp]
  · show findKey (applyUpsertOp t1 store (mkUpsertOp r1)) (jsToLower r2.domain)
      = some { fields := (mkUpsertOp r1).doc, createdAt := t1, updatedAt := t1 }
    rw [e1, findKey_append_fresh store _ _ h0]
    simp [findKey, List.find?, mkUpsertOp, hk]

/-- Sample bad record whose domain carries upper-case letters. -/
def upsertRecA : ProbeVerdict :=
  { domain := "Foo.COM", list_number := "1", status := JsStatus.error,
    error_reason := some "DNS resolution failed", pageSize := 0,
    final_url := "N/A", language := "N/A" }

/-- Later record for the same domain, already lower-case. -/
def upsertRecB : ProbeVerdict :=
  { domain := "foo.com", list_number := "1", status := JsStatus.error,
    error_reason := some "Timeout exceeded", pageSize := 0,
    final_url := "N/A", language := "N/A" }

/-- Witness for C6: the two case-variant records collapse into one document
keyed `"foo.com"`. -/
theorem bad_upsert_idempotent_witness :
    countKey (applyOps [] [(mkUpsertOp upsertRecA, 1), (mkUpsertOp upsertRecB, 2)])
        (jsToLower upsertRecB.domain) = 1
    ∧ findKey (applyOps [] [(mkUpsertOp upsertRecA, 1), (mkUpsertOp upsertRecB, 2)])
        (jsToLower upsertRecB.domain)
        = some { fields := (mkUpsertOp upsertRecB).doc, createdAt := 1, updatedAt := 2 }
    ∧ findKey (applyOps [] [(mkUpsertOp upsertRecA, 1)]) (jsToLower upsertRecB.domain)
        = some { fields := (mkUpsertOp upsertRecA).doc, createdAt := 1, updatedAt := 1 } :=
  bad_upsert_idempotent [] upsertRecA upsertRecB 1 2 (by decide) rfl

/-- C7. While the mutual-exclusion flag is held, a further trigger of the
poller performs no queue read and no other batch action and leaves the flag
held; when the flag is free, a trigger runs the batch and the `finally`
clause releases the flag on every completion path — whether the batch
resolved or threw — so at most one batch is ever in flight. -/
theorem poller_mutex_spec :
    (∀ (ev : List BatchEvent) (thr : Bool), pollTick true ev thr = (true, []))
    ∧ (∀ (ev : List BatchEvent) (thr : Bool),
        (pollTick false ev thr).1 = false ∧ (pollTick false ev thr).2 = ev) :=
  ⟨fun _ _ => rfl, fun _ _ => ⟨rfl, rfl⟩⟩

/-- A pending entry that will classify good. -/
def pollDocs : List QueueDoc :=
  [{ id := 1, domain := "gooddomain", list_number := "7" },
   { id := 2, domain := "baddomain", list_number := "7" }]

/-- Worker verdict for the first pending entry: a good website. -/
def pollGoodVerdict : ProbeVerdict :=
  { domain := "gooddomain", list_number := "7", status := JsStatus.code 200,
    error_reason := none, pageSize := 2000, final_url := "http://gooddomain/",
    language := "en" }

/-- Worker verdict for the second pending entry: a failed probe. -/
def pollBadVerdict : ProbeVerdict :=
  { domain := "baddomain", list_number := "7", status := JsStatus.error,
    error_reason := some "DNS resolution failed", pageSize := 0,
    final_url := "N/A", language := "N/A" }

/-- The two worker outcomes of the batch. -/
def pollOuts : List PollerOutcome :=
  [PollerOutcome.value pollGoodVerdict, PollerOutcome.value pollBadVerdict]

/-- C8 counterexample. In a batch with one good and one bad record where the
good bulk write fails, the failure is caught inside the persistence call:
the bad-upsert attempt is never issued, yet the stats insert and the
deletion of the consumed entries still happen — so deletion does not wait
for all persistence attempts to have been issued. -/
theorem poller_delete_without_bad_attempt_cex :
    processBatchTrace ["en", "en-us"] pollDocs pollOuts true false true true
      = [BatchEvent.readQueue 2, BatchEvent.goodBulk [mkUpsertOp pollGoodVerdict],
         BatchEvent.statsInsert [("7", 1, 1)], BatchEvent.deleteIds [1, 2]]
    ∧ (pollerClassify ["en", "en-us"] pollDocs pollOuts).2 = [pollBadVerdict] := by
  decide

/-- C8 (amended: deletion happens only after the downstream persistence call
`uploadToMongoDB` has been issued and returned without throwing, and it is
the final action of the run; a failure of the good bulk write is caught
inside that call — skipping the bad bulk attempt but not the stats insert or
the deletion — while a throwing stats insert, or a failed queue read,
prevents the deletion entirely). -/
theorem poller_delete_after_upload (allowed : List String) (docs : List QueueDoc)
    (outs : List PollerOutcome) (readOk goodOk badOk statsOk : Bool) :
    (readOk = false →
        processBatchTrace allowed docs outs readOk goodOk badOk statsOk = [])
    ∧ (readOk = true → docs.isEmpty = true →
        processBatchTrace allowed docs outs readOk goodOk badOk statsOk
          = [BatchEvent.readQueue 0])
    ∧ (readOk = true → docs.isEmpty = false →
        ((uploadTrace (pollerClassify allowed docs outs).1
            (pollerClassify allowed docs outs).2 goodOk badOk statsOk).2 = true →
          processBatchTrace allowed docs outs readOk goodOk badOk statsOk
            = BatchEvent.readQueue docs.length
                :: (uploadTrace (pollerClassify allowed docs outs).1
                      (pollerClassify allowed docs outs).2 goodOk badOk statsOk).1)
        ∧ ((uploadTrace (pollerClassify allowed docs outs).1
              (pollerClassify allowed docs outs).2 goodOk badOk statsOk).2 = false →
          processBatchTrace allowed docs outs readOk goodOk badOk statsOk
            = BatchEvent.readQueue docs.length
                :: ((uploadTrace (pollerClassify allowed docs outs).1
                       (pollerClassify allowed docs outs).2 goodOk badOk statsOk).1
                     ++ [BatchEvent.deleteIds (docs.map (fun d => d.id))]))) := by
  refine ⟨?_, ?_, ?_⟩
  · intro h
    simp [processBatchTrace, h]
  · intro h1 h2
    simp [processBatchTrace, h1, h2]
  · intro h1 h2
    constructor <;> intro h3 <;> simp [processBatchTrace, h1, h2, h3]

/-- Witness for C8's amended theorem: with every persistence step
succeeding, the deletion is issued last, after the good bulk, bad bulk and
stats attempts. -/
theorem poller_delete_after_upload_witness :
    processBatchTrace ["en", "en-us"] pollDocs pollOuts true true true true
      = [BatchEvent.readQueue 2, BatchEvent.goodBulk [mkUpsertOp pollGoodVerdict],
         BatchEvent.badBulk [mkUpsertOp pollBadVerdict],
         BatchEvent.statsInsert [("7", 1, 1)], BatchEvent.deleteIds [1, 2]] := by
  have h := ((poller_delete_after_upload ["en", "en-us"] pollDocs pollOuts
      true true true true).2.2 rfl (by decide)).2 (by decide)
  exact h.trans (by decide)

/-- C9 counterexample. A worker-execution failure (a rejection that is not a
timeout) is swallowed by the per-task catch handler before the settle-all
boundary ever sees it: the resulting record carries the task's own identity
and the reason `"Timeout exceeded"`, not the synthetic
`"Worker thread failed"` record. -/
theorem worker_failure_reason_cex :
    ((taskResult { domain := "x.com", list_number := "1" }
        (ExecOutcome.failure "boom")).error_reason = some "Timeout exceeded")
    ∧ ((taskResult { domain := "x.com", list_number := "1" }
        (ExecOutcome.failure "boom")).domain = "x.com")
    ∧ ¬((taskResult { domain := "x.com", list_number := "1" }
        (ExecOutcome.failure "boom")).error_reason = some "Worker thread failed")
    ∧ (settledOf { domain := "x.com", list_number := "1" }
        (ExecOutcome.failure "boom")
        = SettledResult.fulfilled (timeoutRecord { domain := "x.com", list_number := "1" })) := by
  decide

/-- C9 (amended: an unexpected worker exception is caught by the per-task
catch handler, producing the same bad record as a timeout — reason
`"Timeout exceeded"`, identity preserved — so every task settles fulfilled;
the settle-all boundary's synthetic `"Worker thread failed"` record is
produced only for rejected settled outcomes, which the per-task catch
prevents; the rest of the batch is unaffected, with one record per task). -/
theorem worker_failure_caught_spec (allowed : List String) :
    (∀ (d : DomainData) (msg : String),
        taskResult d (ExecOutcome.failure msg) = timeoutRecord d)
    ∧ (∀ (d : DomainData) (o : ExecOutcome),
        settledOf d o = SettledResult.fulfilled (taskResult d o))
    ∧ (∀ g b : List ProbeVerdict,
        classifyStep allowed (g, b) SettledResult.rejected = (g, b ++ [workerFailedRecord]))
    ∧ isGoodResult allowed workerFailedRecord = false
    ∧ (∀ pairs : List (CsvRow × ExecOutcome),
        (processCSVResults allowed pairs).1.length
          + (processCSVResults allowed pairs).2.length = (csvTasks pairs).length) := by
  refine ⟨fun _ _ => rfl, fun _ _ => rfl, fun _ _ => rfl,
    by simp [isGoodResult, workerFailedRecord], fun pairs => ?_⟩
  rw [processCSVResults_eq]
  have h := length_filter_partition (fun v => isGoodResult allowed v) (csvRecords pairs)
  simpa [csvRecords] using h

/-- C10. An invalid task (absent, or with missing or empty domain or list
number) yields the prober's substitute verdict with domain and list number
`"unknown"`; its upsert key is therefore `"unknown"`, and any run of
`"unknown"`-keyed upserts leaves at most one stored document for that key in
a store that started with at most one. -/
theorem invalid_tasks_collapse (task : Option DomainDataJS) (env : NetEnv)
    (h : isValidTask task = false) (store : List StoredDoc)
    (ops : List (UpsertOp × Nat))
    (hops : ∀ p ∈ ops, p.1.key = "unknown" ∧ p.1.doc.domain = "unknown")
    (hstore : countKey store "unknown" ≤ 1) :
    (checkWebsite task env).domain = "unknown"
    ∧ (checkWebsite task env).list_number = "unknown"
    ∧ (mkUpsertOp (checkWebsite task env)).key = "unknown"
    ∧ countKey (applyOps store ops) "unknown" ≤ 1 := by
  have hcw : checkWebsite task env = invalidVerdict := by
    unfold checkWebsite
    simp [h]
  refine ⟨by rw [hcw]; rfl, by rw [hcw]; rfl, by rw [hcw]; decide, ?_⟩
  apply countKey_applyOps_le_one store ops "unknown" ?_ hstore
  intro p hp
  refine ⟨?_, (hops p hp).1⟩
  rw [(hops p hp).2]
  simp

/-- Witness for C10: an absent task, probed under a failing fetch, yields the
`"unknown"` identity, and two `"unknown"`-keyed upserts leave one
document. -/
theorem invalid_tasks_collapse_witness :
    (checkWebsite none { dnsOk := true, fetch := Except.error "boom" }).domain = "unknown"
    ∧ (checkWebsite none { dnsOk := true, fetch := Except.error "boom" }).list_number = "unknown"
    ∧ (mkUpsertOp (checkWebsite none { dnsOk := true, fetch := Except.error "boom" })).key = "unknown"
    ∧ countKey (applyOps []
        [(mkUpsertOp invalidVerdict, 3), (mkUpsertOp invalidVerdict, 4)]) "unknown" ≤ 1 :=
  invalid_tasks_collapse none { dnsOk := true, fetch := Except.error "boom" } rfl []
    [(mkUpsertOp invalidVerdict, 3), (mkUpsertOp invalidVerdict, 4)]
    (by decide) (by decide)

end DomainChecker
